import Mathlib

/-!
Shallow embedding of the broker core of open-stocks-mcp
(src/open_stocks_mcp/brokers/base.py, registry.py, auth_coordinator.py,
robinhood.py), together with theorems settling the claims about it.

Conventions of the embedding:
* Python dicts (which preserve insertion order) are association lists
  `List (String × α)`; `dictSet` mirrors `d[k] = v` (update in place when
  the key exists, append otherwise) and `dictGet` mirrors `d.get(k)`.
* `datetime.now()` timestamps are abstract `Nat` clock values passed in
  as parameters.
* An adapter call that may raise is a value of `AuthOutcome`:
  `AuthOutcome.ok b` for a normal return of `b`, `AuthOutcome.exn msg`
  for a raised exception carrying `str(e) = msg`; the auth-info state the
  adapter leaves behind is returned alongside.
* Log calls are modelled as abstract `CoordLog` events where a claim
  depends on them, and dropped elsewhere.
-/

namespace OpenStocks

/-- Python dict get: `d.get(k)`. -/
def dictGet {α : Type} (d : List (String × α)) (k : String) : Option α :=
  match d with
  | [] => none
  | (k1, v) :: rest => if k1 = k then some v else dictGet rest k

/-- Python dict assignment `d[k] = v`: update in place, else append. -/
def dictSet {α : Type} (d : List (String × α)) (k : String) (v : α) :
    List (String × α) :=
  match d with
  | [] => [(k, v)]
  | (k1, v1) :: rest =>
      if k1 = k then (k, v) :: rest else (k1, v1) :: dictSet rest k v

/-- BrokerAuthStatus enum from base.py. -/
inductive BrokerAuthStatus where
  | NOT_CONFIGURED
  | NOT_AUTHENTICATED
  | AUTHENTICATING
  | AUTHENTICATED
  | AUTH_FAILED
  | TOKEN_EXPIRED
  | MFA_REQUIRED
deriving DecidableEq, Repr

/-- The .value string of each enum member, as in base.py. -/
def BrokerAuthStatus.value : BrokerAuthStatus → String
  | .NOT_CONFIGURED => "not_configured"
  | .NOT_AUTHENTICATED => "not_authenticated"
  | .AUTHENTICATING => "authenticating"
  | .AUTHENTICATED => "authenticated"
  | .AUTH_FAILED => "auth_failed"
  | .TOKEN_EXPIRED => "token_expired"
  | .MFA_REQUIRED => "mfa_required"

/-- BrokerAuthInfo dataclass from base.py; datetimes are abstract Nat. -/
structure BrokerAuthInfo where
  status : BrokerAuthStatus
  broker_name : String
  last_auth_attempt : Option Nat := none
  last_successful_auth : Option Nat := none
  error_message : Option String := none
  requires_setup : Bool := false
  setup_instructions : Option String := none
deriving DecidableEq, Repr

/-- Outcome of one adapter `authenticate()` call: normal return of a bool,
or a raised exception with message `str(e)`. -/
inductive AuthOutcome where
  | ok (success : Bool)
  | exn (msg : String)
deriving DecidableEq, Repr

/-- A broker as the registry sees it: its name, current auth info, and the
behaviour of its `authenticate()` method (arbitrary adapter code), given as
a function from the current auth info to the call outcome together with the
auth info the adapter leaves behind when the call returns or raises. -/
structure Broker where
  name : String
  auth_info : BrokerAuthInfo
  authenticate : BrokerAuthInfo → AuthOutcome × BrokerAuthInfo

/-- base.py is_available: status == AUTHENTICATED. -/
def Broker.is_available (b : Broker) : Bool :=
  b.auth_info.status = BrokerAuthStatus.AUTHENTICATED

/-- base.py is_configured: status != NOT_CONFIGURED. -/
def Broker.is_configured (b : Broker) : Bool :=
  ¬ b.auth_info.status = BrokerAuthStatus.NOT_CONFIGURED

/-- The adapter call on the current auth info returns ok True. -/
def Broker.auth_succeeds (b : Broker) : Bool :=
  match b.authenticate b.auth_info with
  | (AuthOutcome.ok true, _) => true
  | _ => false

/-- Python str.upper on ASCII names. -/
def pyUpper (s : String) : String := s.toUpper

/-- Python str.title on ASCII names: uppercase each alphabetic character
that does not follow an alphabetic character, lowercase the rest. -/
def pyTitleAux : List Char → Bool → List Char
  | [], _ => []
  | c :: cs, prevAlpha =>
      if c.isAlpha then
        (if prevAlpha then c.toLower else c.toUpper) :: pyTitleAux cs true
      else
        c :: pyTitleAux cs false

def pyTitle (s : String) : String := ⟨pyTitleAux s.data false⟩

/-- Python str() of an Optional string (prints None when absent). -/
def pyStr : Option String → String
  | none => "None"
  | some s => s

/-- The inner dict of a tool-facing payload, i.e. the value stored under
the result key. Keys that a given payload shape omits are `none`. -/
structure ResultPayload where
  error : String
  status : String
  broker : Option String := none
  auth_status : Option String := none
  requires_setup : Option Bool := none
  help : Option String := none
deriving DecidableEq, Repr

/-- base.py create_unavailable_response. -/
def Broker.create_unavailable_response (b : Broker) (operation : String) :
    ResultPayload :=
  let status := b.auth_info.status
  let broker := b.name
  let message : String :=
    if status = BrokerAuthStatus.NOT_CONFIGURED then
      let base := pyTitle broker ++ " is not configured. Please set " ++
        pyUpper broker ++ "_USERNAME and " ++ pyUpper broker ++
        "_PASSWORD environment variables."
      match b.auth_info.setup_instructions with
      | some si => base ++ "\n\nSetup: " ++ si
      | none => base
    else if status = BrokerAuthStatus.AUTH_FAILED then
      pyTitle broker ++ " authentication failed: " ++
        pyStr b.auth_info.error_message
    else if status = BrokerAuthStatus.TOKEN_EXPIRED then
      pyTitle broker ++ " session expired. " ++
        "Please restart the server to re-authenticate."
    else if status = BrokerAuthStatus.MFA_REQUIRED then
      pyTitle broker ++ " requires MFA verification. " ++
        "Please complete authentication and restart server."
    else if status = BrokerAuthStatus.AUTHENTICATING then
      pyTitle broker ++ " authentication in progress. Please try again."
    else
      pyTitle broker ++ " is not available for " ++ operation ++ "."
  { error := message
    status := "broker_unavailable"
    broker := some broker
    auth_status := some status.value
    requires_setup := some b.auth_info.requires_setup }

/-- BrokerRegistry state from registry.py. -/
structure BrokerRegistry where
  brokers : List (String × Broker)
  active_broker : Option String
  authentication_attempts : List (String × Nat)

/-- The freshly initialized registry. -/
def BrokerRegistry.init : BrokerRegistry :=
  { brokers := [], active_broker := none, authentication_attempts := [] }

/-- registry.py register. -/
def BrokerRegistry.register (st : BrokerRegistry) (broker : Broker) :
    BrokerRegistry :=
  let st1 : BrokerRegistry :=
    { st with
      brokers := dictSet st.brokers broker.name broker
      authentication_attempts :=
        dictSet st.authentication_attempts broker.name 0 }
  match st1.active_broker with
  | none => { st1 with active_broker := some broker.name }
  | some _ => st1

/-- Python `name or self._active_broker`: the empty string is falsy, so it
coalesces to the active broker exactly like None does. -/
def pyOrActive (name : Option String) (active : Option String) :
    Option String :=
  match name with
  | none => active
  | some s => if s = "" then active else some s

/-- registry.py get_broker. -/
def BrokerRegistry.get_broker (st : BrokerRegistry) (name : Option String) :
    Option Broker :=
  match pyOrActive name st.active_broker with
  | none => none
  | some bn => if bn = "" then none else dictGet st.brokers bn

/-- registry.py get_broker_or_error. -/
def BrokerRegistry.get_broker_or_error (st : BrokerRegistry)
    (name : Option String) (operation : String) :
    Option Broker × Option ResultPayload :=
  match st.get_broker name with
  | none =>
      (none, some
        { error := "Broker not found: " ++
            (match pyOrActive name (some "active") with
             | some s => s
             | none => "active")
          status := "broker_not_found" })
  | some broker =>
      if broker.is_available then (some broker, none)
      else (none, some (broker.create_unavailable_response operation))

/-- registry.py set_active_broker: returns the bool together with the
registry state after the call. -/
def BrokerRegistry.set_active_broker (st : BrokerRegistry) (name : String) :
    Bool × BrokerRegistry :=
  match dictGet st.brokers name with
  | none => (false, st)
  | some _ => (true, { st with active_broker := some name })

/-- registry.py list_brokers. -/
def BrokerRegistry.list_brokers (st : BrokerRegistry) : List String :=
  st.brokers.map Prod.fst

/-- The `self._authentication_attempts[name] += 1` in authenticate_all.
register always creates the key with value 0, so on every state reachable
through the API the key is present; a missing key defaults to 0 here. -/
def bumpAttempt (attempts : List (String × Nat)) (name : String) :
    List (String × Nat) :=
  dictSet attempts name ((dictGet attempts name).getD 0 + 1)

/-- The loop body of registry.py authenticate_all, iterating the snapshot
of registered brokers. Returns the updated broker entries, the updated
attempt counters, and the accumulated results map (insertion order). -/
def authenticateAllLoop (fail_fast : Bool) :
    List (String × Broker) → List (String × Nat) →
    List (String × Broker) × List (String × Nat) × List (String × Bool)
  | [], attempts => ([], attempts, [])
  | (name, broker) :: rest, attempts =>
      if broker.is_configured = false then
        -- not configured: record false, no attempt, continue
        let r := authenticateAllLoop fail_fast rest attempts
        ((name, broker) :: r.1, r.2.1, (name, false) :: r.2.2)
      else
        let attempts1 := bumpAttempt attempts name
        match broker.authenticate broker.auth_info with
        | (AuthOutcome.ok true, info1) =>
            let r := authenticateAllLoop fail_fast rest attempts1
            ((name, { broker with auth_info := info1 }) :: r.1, r.2.1,
              (name, true) :: r.2.2)
        | (AuthOutcome.ok false, info1) =>
            let b1 : Broker := { broker with auth_info := info1 }
            if fail_fast then
              ((name, b1) :: rest, attempts1, [(name, false)])
            else
              let r := authenticateAllLoop fail_fast rest attempts1
              ((name, b1) :: r.1, r.2.1, (name, false) :: r.2.2)
        | (AuthOutcome.exn msg, info1) =>
            -- defensive handler: set AUTH_FAILED and capture str(e)
            let b1 : Broker := { broker with auth_info :=
              { info1 with status := BrokerAuthStatus.AUTH_FAILED
                           error_message := some msg } }
            if fail_fast then
              ((name, b1) :: rest, attempts1, [(name, false)])
            else
              let r := authenticateAllLoop fail_fast rest attempts1
              ((name, b1) :: r.1, r.2.1, (name, false) :: r.2.2)

/-- registry.py authenticate_all: the registry state after the call and the
returned results map. -/
def BrokerRegistry.authenticate_all (st : BrokerRegistry) (fail_fast : Bool) :
    BrokerRegistry × List (String × Bool) :=
  let r := authenticateAllLoop fail_fast st.brokers st.authentication_attempts
  ({ st with brokers := r.1, authentication_attempts := r.2.1 }, r.2.2)

/-- Abstract log events of auth_coordinator.py attempt_broker_logins.
`limitedModeNotice` is the one log line guarded by require_at_least_one. -/
inductive CoordLog where
  | separator
  | startBanner
  | noBrokersWarning
  | registeredBrokers (names : List String)
  | summaryHeader
  | brokerAuthenticated (name : String)
  | brokerNotConfigured (name : String)
  | brokerMfaRequired (name : String)
  | brokerFailed (name : String) (err : String)
  | allSucceeded (total : Nat)
  | partialSuccess (successful total : Nat) (failed : List String)
  | noneAuthenticated (total : Nat) (failed : List String)
  | limitedModeNotice
  | noAttempts
deriving DecidableEq, Repr

/-- The per-broker summary loop of attempt_broker_logins, run against the
registry state after authenticate_all. -/
def summaryLogs (st1 : BrokerRegistry) :
    List (String × Bool) → List CoordLog
  | [] => []
  | (name, success) :: rest =>
      let here : List CoordLog :=
        if success then [CoordLog.brokerAuthenticated name]
        else
          match st1.get_broker (some name) with
          | none => []
          | some broker =>
              let err :=
                match broker.auth_info.error_message with
                | none => "Unknown error"
                | some s => if s = "" then "Unknown error" else s
              if broker.auth_info.status = BrokerAuthStatus.NOT_CONFIGURED then
                [CoordLog.brokerNotConfigured name]
              else if broker.auth_info.status = BrokerAuthStatus.MFA_REQUIRED then
                [CoordLog.brokerMfaRequired name]
              else
                [CoordLog.brokerFailed name err]
      here ++ summaryLogs st1 rest

/-- auth_coordinator.py attempt_broker_logins, acting on the (global)
registry state: returns the (successful, total, failed) triple, the
registry state after the call, and the emitted log events. -/
def attempt_broker_logins (st : BrokerRegistry)
    (require_at_least_one : Bool) :
    (Nat × Nat × List String) × BrokerRegistry × List CoordLog :=
  let intro : List CoordLog :=
    [CoordLog.separator, CoordLog.startBanner, CoordLog.separator]
  let brokers := st.list_brokers
  if brokers.isEmpty then
    ((0, 0, []), st, intro ++ [CoordLog.noBrokersWarning])
  else
    let ar := st.authenticate_all false
    let st1 := ar.1
    let results := ar.2
    let successful := (results.filter (fun p => p.2)).length
    let total := results.length
    let failed := (results.filter (fun p => p.2 = false)).map Prod.fst
    let per := summaryLogs st1 results
    let overall : List CoordLog :=
      if successful = total ∧ 0 < total then
        [CoordLog.allSucceeded total]
      else if 0 < successful then
        [CoordLog.partialSuccess successful total failed]
      else if 0 < total then
        [CoordLog.noneAuthenticated total failed] ++
          (if require_at_least_one then [CoordLog.limitedModeNotice] else [])
      else
        [CoordLog.noAttempts]
    ((successful, total, failed), st1,
      intro ++ [CoordLog.registeredBrokers brokers] ++
        [CoordLog.separator, CoordLog.summaryHeader, CoordLog.separator] ++
        per ++ [CoordLog.separator] ++ overall ++ [CoordLog.separator])

/-- auth_coordinator.py create_unauthenticated_tool_response. The quote
marks around broker_status in the source messages are elided. -/
def create_unauthenticated_tool_response (broker_name : Option String) :
    ResultPayload :=
  let named : Bool :=
    match broker_name with
    | none => false
    | some s => ¬ s = ""
  let message :=
    if named then
      pyTitle (pyStr broker_name) ++ " is not available. " ++
        "Please check authentication status with the broker_status tool."
    else
      "No authenticated brokers available. " ++
        "Please check authentication status with the broker_status tool."
  { error := message
    status := "no_authenticated_brokers"
    help := some
      "Check logs for authentication errors or run broker_status tool" }

/-- auth_coordinator.py get_authenticated_broker_or_error: pure delegation
to registry.get_broker_or_error. -/
def get_authenticated_broker_or_error (st : BrokerRegistry)
    (broker_name : Option String) (operation : String) :
    Option Broker × Option ResultPayload :=
  st.get_broker_or_error broker_name operation

/-! robinhood.py RobinhoodBroker state transitions on its auth info.
The SessionManager is abstract: each method takes the outcome of the
session-manager call it wraps as a parameter. -/

/-- Outcome of session_manager.ensure_authenticated() as seen inside the
try block of RobinhoodBroker.authenticate: a normal bool or an exception. -/
inductive SessionOutcome where
  | ok (success : Bool)
  | exn (msg : String)
deriving DecidableEq, Repr

/-- robinhood.py authenticate: t1 is datetime.now() at the attempt, t2 the
later datetime.now() on success. Returns the bool result and the auth info
after the call. -/
def rhAuthenticate (b : BrokerAuthInfo) (t1 t2 : Nat)
    (outcome : SessionOutcome) : Bool × BrokerAuthInfo :=
  let b1 : BrokerAuthInfo :=
    { b with last_auth_attempt := some t1
             status := BrokerAuthStatus.AUTHENTICATING }
  match outcome with
  | SessionOutcome.ok true =>
      (true, { b1 with status := BrokerAuthStatus.AUTHENTICATED
                       last_successful_auth := some t2
                       error_message := none })
  | SessionOutcome.ok false =>
      (false, { b1 with status := BrokerAuthStatus.AUTH_FAILED
                        error_message :=
                          some "Authentication failed - check username/password" })
  | SessionOutcome.exn msg =>
      (false, { b1 with status := BrokerAuthStatus.AUTH_FAILED
                        error_message := some msg })

/-- robinhood.py is_authenticated: session_valid is what
session_manager.is_session_valid() returned. -/
def rhIsAuthenticated (b : BrokerAuthInfo) (session_valid : Bool) :
    Bool × BrokerAuthInfo :=
  if session_valid = false ∧ b.status = BrokerAuthStatus.AUTHENTICATED then
    (session_valid, { b with status := BrokerAuthStatus.TOKEN_EXPIRED
                             error_message := some "Session expired" })
  else
    (session_valid, b)

/-- robinhood.py logout: failure carries the message of an exception raised
by session_manager.logout(), in which case the auth info is left as it was
(only a log line is emitted). -/
def rhLogout (b : BrokerAuthInfo) (failure : Option String) :
    BrokerAuthInfo :=
  match failure with
  | none => { b with status := BrokerAuthStatus.NOT_AUTHENTICATED
                     error_message := none }
  | some _ => b

/-- registry.py authenticate_all defensive handler, applied to a broker
whose authenticate() raised with message msg. -/
def registryDefensive (b : BrokerAuthInfo) (msg : String) : BrokerAuthInfo :=
  { b with status := BrokerAuthStatus.AUTH_FAILED, error_message := some msg }

/-- One auth-info-affecting operation on a Robinhood broker. -/
inductive RHOp where
  | auth (t1 t2 : Nat) (outcome : SessionOutcome)
  | isAuth (session_valid : Bool)
  | logout (failure : Option String)
  | defensive (msg : String)
deriving DecidableEq, Repr

/-- The auth-info transition of one operation. -/
def rhStep (b : BrokerAuthInfo) : RHOp → BrokerAuthInfo
  | RHOp.auth t1 t2 o => (rhAuthenticate b t1 t2 o).2
  | RHOp.isAuth v => (rhIsAuthenticated b v).2
  | RHOp.logout f => rhLogout b f
  | RHOp.defensive m => registryDefensive b m

/-- Run a sequence of operations. -/
def rhRun (b : BrokerAuthInfo) (ops : List RHOp) : BrokerAuthInfo :=
  ops.foldl rhStep b

/-- Whether an operation is a successful authenticate (the only kind of
step that writes last_successful_auth). -/
def RHOp.isSuccessfulAuth : RHOp → Bool
  | RHOp.auth _ _ (SessionOutcome.ok true) => true
  | _ => false

/-- Registry-mutating operations, for invariant claims over operation
sequences. -/
inductive RegOp where
  | register (b : Broker)
  | setActive (name : String)
  | authAll (fail_fast : Bool)

/-- The registry transition of one operation. -/
def regStep (st : BrokerRegistry) : RegOp → BrokerRegistry
  | RegOp.register b => st.register b
  | RegOp.setActive n => (st.set_active_broker n).2
  | RegOp.authAll ff => (st.authenticate_all ff).1

/-- Run a sequence of registry operations from the initial state. -/
def regRun (ops : List RegOp) : BrokerRegistry :=
  ops.foldl regStep BrokerRegistry.init

/-! Example brokers and registries used by witnesses and counterexamples. -/

/-- A minimal auth info with a given status. -/
def exInfo (s : BrokerAuthStatus) : BrokerAuthInfo :=
  { status := s, broker_name := "x" }

/-- Registered but never configured. -/
def exBUnconf : Broker :=
  { name := "u", auth_info := exInfo BrokerAuthStatus.NOT_CONFIGURED,
    authenticate := fun i => (AuthOutcome.ok false, i) }

/-- Configured; authenticate() returns True and marks itself authenticated. -/
def exBTrue : Broker :=
  { name := "t", auth_info := exInfo BrokerAuthStatus.NOT_AUTHENTICATED,
    authenticate := fun i => (AuthOutcome.ok true,
      { i with status := BrokerAuthStatus.AUTHENTICATED }) }

/-- Configured; authenticate() returns False and marks itself failed. -/
def exBFalse : Broker :=
  { name := "f", auth_info := exInfo BrokerAuthStatus.NOT_AUTHENTICATED,
    authenticate := fun i => (AuthOutcome.ok false,
      { i with status := BrokerAuthStatus.AUTH_FAILED }) }

/-- Configured; authenticate() raises with message boom. -/
def exBExn : Broker :=
  { name := "e", auth_info := exInfo BrokerAuthStatus.NOT_AUTHENTICATED,
    authenticate := fun i => (AuthOutcome.exn "boom", i) }

/-- A broker sitting in AUTH_FAILED after a failed login. -/
def exBAF : Broker :=
  { name := "rb", auth_info :=
      { status := BrokerAuthStatus.AUTH_FAILED, broker_name := "rb",
        error_message := some "OAuth failed" },
    authenticate := fun i => (AuthOutcome.ok false, i) }

/-- Registry holding the one unconfigured broker. -/
def exRegUnconf : BrokerRegistry := BrokerRegistry.init.register exBUnconf

/-! Generic lemmas about the dict embedding and the authenticate_all loop. -/

theorem dictGet_dictSet_self {α : Type} (d : List (String × α)) (k : String)
    (v : α) : dictGet (dictSet d k v) k = some v := by
  induction d with
  | nil => simp [dictGet, dictSet]
  | cons hd tl ih =>
      obtain ⟨k1, v1⟩ := hd
      by_cases h : k1 = k
      · simp [dictGet, dictSet, h]
      · simp [dictGet, dictSet, h, ih]

theorem dictGet_dictSet_ne {α : Type} (d : List (String × α)) (k nm : String)
    (v : α) (h : ¬ k = nm) : dictGet (dictSet d k v) nm = dictGet d nm := by
  induction d with
  | nil => simp [dictGet, dictSet, h]
  | cons hd tl ih =>
      obtain ⟨k1, v1⟩ := hd
      by_cases h1 : k1 = k
      · subst h1
        simp [dictGet, dictSet, h]
      · simp [dictGet, dictSet, h1, ih]

/-- Keys present is determined by the key list alone. -/
theorem dictGet_isSome_of_keys_eq {α : Type} (l1 l2 : List (String × α))
    (h : l1.map Prod.fst = l2.map Prod.fst) (a : String) :
    (dictGet l1 a).isSome = (dictGet l2 a).isSome := by
  induction l1 generalizing l2 with
  | nil =>
      cases l2 with
      | nil => rfl
      | cons hd tl => simp at h
  | cons hd tl ih =>
      cases l2 with
      | nil => simp at h
      | cons hd2 tl2 =>
          obtain ⟨k1, v1⟩ := hd
          obtain ⟨k2, v2⟩ := hd2
          simp at h
          obtain ⟨hk, htl⟩ := h
          subst hk
          by_cases hcase : k1 = a
          · simp [dictGet, hcase]
          · simp [dictGet, hcase, ih tl2 htl]

/-- With fail_fast = false, the results map is exactly one entry per
iterated broker, true exactly for configured brokers whose authenticate
returns True. -/
theorem loop_false_results (brokers : List (String × Broker))
    (attempts : List (String × Nat)) :
    (authenticateAllLoop false brokers attempts).2.2 =
      brokers.map (fun nb => (nb.1, nb.2.is_configured && nb.2.auth_succeeds)) := by
  induction brokers generalizing attempts with
  | nil => rfl
  | cons hd tl ih =>
      obtain ⟨name, broker⟩ := hd
      by_cases hconf : broker.is_configured = false
      · simp [authenticateAllLoop, hconf, ih]
      · have hconf1 : broker.is_configured = true := by
          cases h : broker.is_configured
          · exact absurd h hconf
          · rfl
        cases hauth : broker.authenticate broker.auth_info with
        | mk outcome info1 =>
            cases outcome with
            | ok success =>
                cases success
                · simp [authenticateAllLoop, hconf, hauth, ih, hconf1,
                    Broker.auth_succeeds]
                · simp [authenticateAllLoop, hconf, hauth, ih, hconf1,
                    Broker.auth_succeeds]
            | exn msg =>
                simp [authenticateAllLoop, hconf, hauth, ih, hconf1,
                  Broker.auth_succeeds]

/-- The loop preserves the key sequence of the broker dict (for either
value of fail_fast). -/
theorem loop_brokers_keys (fail_fast : Bool)
    (brokers : List (String × Broker)) (attempts : List (String × Nat)) :
    (authenticateAllLoop fail_fast brokers attempts).1.map Prod.fst =
      brokers.map Prod.fst := by
  induction brokers generalizing attempts with
  | nil => rfl
  | cons hd tl ih =>
      obtain ⟨name, broker⟩ := hd
      by_cases hconf : broker.is_configured = false
      · simp [authenticateAllLoop, hconf, ih]
      · cases hauth : broker.authenticate broker.auth_info with
        | mk outcome info1 =>
            cases outcome with
            | ok success =>
                cases success
                · cases fail_fast
                  · simp [authenticateAllLoop, hconf, hauth, ih]
                  · simp [authenticateAllLoop, hconf, hauth]
                · simp [authenticateAllLoop, hconf, hauth, ih]
            | exn msg =>
                cases fail_fast
                · simp [authenticateAllLoop, hconf, hauth, ih]
                · simp [authenticateAllLoop, hconf, hauth]

/-- Claim C1 as stated is false on the code: the results map of
authenticate_all(fail_fast=false) contains an entry for every registered
broker, not only for the configured ones. On a registry with N = 1
registered broker of which K = 0 are configured, the map has 1 entry, not
K = 0. -/
theorem C1_counterexample :
    ¬ ((exRegUnconf.authenticate_all false).2.length =
        (exRegUnconf.brokers.filter (fun p => p.2.is_configured)).length) := by
  decide

/-- Claim C1 amended: authenticate_all(fail_fast=false) returns a map with
exactly one entry per registered broker, in registration order; the entry
is true exactly when the broker is configured and its authenticate()
returns True, so unconfigured brokers appear with value false and the map
holds exactly M true values for M configured-and-succeeding brokers. -/
theorem C1_authenticate_all_results (st : BrokerRegistry) :
    (st.authenticate_all false).2 =
      st.brokers.map (fun nb => (nb.1, nb.2.is_configured && nb.2.auth_succeeds)) ∧
    (st.authenticate_all false).2.map Prod.fst = st.brokers.map Prod.fst ∧
    ((st.authenticate_all false).2.filter (fun p => p.2)).length =
      (st.brokers.filter
        (fun p => p.2.is_configured && p.2.auth_succeeds)).length := by
  have h := loop_false_results st.brokers st.authentication_attempts
  refine ⟨h, ?_, ?_⟩
  · show (authenticateAllLoop false st.brokers st.authentication_attempts).2.2.map
        Prod.fst = st.brokers.map Prod.fst
    rw [h]
    simp
  · show ((authenticateAllLoop false st.brokers
        st.authentication_attempts).2.2.filter (fun p => p.2)).length = _
    rw [h]
    rw [List.filter_map]
    simp only [List.length_map]
    rfl

/-- With fail_fast = false, a broker whose authenticate() raises ends up,
at its position in the updated broker list, with AUTH_FAILED status and
the exception message captured, on top of whatever auth info the adapter
left behind. -/
theorem loop_false_exn_state (pre : List (String × Broker)) (n : String)
    (b : Broker) (post : List (String × Broker))
    (attempts : List (String × Nat)) (msg : String) (info1 : BrokerAuthInfo)
    (hconf : b.is_configured = true)
    (hexn : b.authenticate b.auth_info = (AuthOutcome.exn msg, info1)) :
    (authenticateAllLoop false (pre ++ (n, b) :: post) attempts).1.get?
        pre.length =
      some (n, { b with auth_info :=
        { info1 with status := BrokerAuthStatus.AUTH_FAILED
                     error_message := some msg } }) := by
  induction pre generalizing attempts with
  | nil =>
      simp [authenticateAllLoop, hconf, hexn]
  | cons hd tl ih =>
      obtain ⟨k, p⟩ := hd
      by_cases hc : p.is_configured = false
      · simp only [List.cons_append, authenticateAllLoop, hc, if_true,
          List.length_cons, List.get?_cons_succ]
        exact ih attempts
      · cases hauth : p.authenticate p.auth_info with
        | mk outcome i1 =>
            cases outcome with
            | ok s =>
                cases s
                · simp only [List.cons_append, authenticateAllLoop, hc,
                    if_false, hauth, List.length_cons, List.get?_cons_succ]
                  exact ih _
                · simp only [List.cons_append, authenticateAllLoop, hc,
                    if_false, hauth, List.length_cons, List.get?_cons_succ]
                  exact ih _
            | exn m =>
                simp only [List.cons_append, authenticateAllLoop, hc,
                  if_false, hauth, List.length_cons, List.get?_cons_succ]
                exact ih _

/-- Claim C2: with fail_fast = false, an exception raised by an adapter
during authenticate_all is caught: the broker is marked AUTH_FAILED with
the exception message stored, false is recorded for it in the results map,
and iteration continues, so every registered broker still gets an entry.
authenticate_all itself is a total function of the registry state in this
embedding (the only raising operation, the adapter call, is a value of
AuthOutcome and both constructors are handled), so it never raises. -/
theorem C2_exception_contained (st : BrokerRegistry)
    (pre : List (String × Broker)) (n : String) (b : Broker)
    (post : List (String × Broker)) (msg : String) (info1 : BrokerAuthInfo)
    (hsplit : st.brokers = pre ++ (n, b) :: post)
    (hconf : b.is_configured = true)
    (hexn : b.authenticate b.auth_info = (AuthOutcome.exn msg, info1)) :
    (st.authenticate_all false).2.map Prod.fst = st.brokers.map Prod.fst ∧
    (st.authenticate_all false).2.get? pre.length = some (n, false) ∧
    ((st.authenticate_all false).1.brokers.get? pre.length).map
        (fun q => (q.1, q.2.auth_info)) =
      some (n, { info1 with status := BrokerAuthStatus.AUTH_FAILED
                            error_message := some msg }) := by
  have hs : b.auth_succeeds = false := by
    simp [Broker.auth_succeeds, hexn]
  refine ⟨?_, ?_, ?_⟩
  · show (authenticateAllLoop false st.brokers st.authentication_attempts).2.2.map
        Prod.fst = st.brokers.map Prod.fst
    rw [loop_false_results]
    simp
  · show (authenticateAllLoop false st.brokers st.authentication_attempts).2.2.get?
        pre.length = some (n, false)
    rw [loop_false_results, hsplit, List.map_append, List.map_cons]
    rw [List.get?_append_right (by simp)]
    simp [hs]
  · show ((authenticateAllLoop false st.brokers
        st.authentication_attempts).1.get? pre.length).map
        (fun q => (q.1, q.2.auth_info)) = _
    rw [hsplit, loop_false_exn_state pre n b post _ msg info1 hconf hexn]
    rfl

/-- Concrete run of C2_exception_contained: a three-broker registry whose
middle broker raises boom; the middle entry is false, the exception is
captured, and the third broker still has an entry. -/
theorem C2_exception_contained_witness :
    exBExn.is_configured = true ∧
    exBExn.authenticate exBExn.auth_info =
      (AuthOutcome.exn "boom", exInfo BrokerAuthStatus.NOT_AUTHENTICATED) ∧
    ((((BrokerRegistry.init.register exBTrue).register exBExn).register
        exBFalse).authenticate_all false).2.get? 1 = some ("e", false) := by
  refine ⟨by decide, rfl, ?_⟩
  exact (C2_exception_contained
    (((BrokerRegistry.init.register exBTrue).register exBExn).register
      exBFalse)
    [("t", exBTrue)] "e" exBExn [("f", exBFalse)] "boom"
    (exInfo BrokerAuthStatus.NOT_AUTHENTICATED) rfl (by decide) rfl).2.1

/-- With fail_fast = true, the loop stops at the first configured broker
whose authenticate() does not succeed (returns False or raises): the
results hold exactly the brokers up to and including that one, that one is
recorded false, the broker entries after it are returned untouched, and
the attempt counters of names outside the processed prefix are unchanged. -/
theorem loop_true_stops (pre : List (String × Broker)) (n : String)
    (b : Broker) (post : List (String × Broker))
    (attempts : List (String × Nat))
    (hpre : ∀ p ∈ pre, (p.2.is_configured && !p.2.auth_succeeds) = false)
    (hb : (b.is_configured && !b.auth_succeeds) = true) :
    (authenticateAllLoop true (pre ++ (n, b) :: post) attempts).2.2.map
        Prod.fst = (pre ++ [(n, b)]).map Prod.fst ∧
    (authenticateAllLoop true (pre ++ (n, b) :: post) attempts).2.2.get?
        pre.length = some (n, false) ∧
    (authenticateAllLoop true (pre ++ (n, b) :: post) attempts).1.drop
        (pre.length + 1) = post ∧
    ∀ nm, ¬ nm ∈ (pre ++ [(n, b)]).map Prod.fst →
      dictGet (authenticateAllLoop true (pre ++ (n, b) :: post) attempts).2.1
          nm =
        dictGet attempts nm := by
  induction pre generalizing attempts with
  | nil =>
      have hconf : b.is_configured = true := by
        cases h : b.is_configured
        · rw [h] at hb
          simp at hb
        · rfl
      have hfail : b.auth_succeeds = false := by
        cases h : b.auth_succeeds
        · rfl
        · rw [h] at hb
          simp at hb
      cases hauth : b.authenticate b.auth_info with
      | mk outcome i1 =>
          cases outcome with
          | ok s =>
              cases s
              · refine ⟨?_, ?_, ?_, ?_⟩
                · simp [authenticateAllLoop, hconf, hauth]
                · simp [authenticateAllLoop, hconf, hauth]
                · simp [authenticateAllLoop, hconf, hauth]
                · intro nm hnm
                  simp at hnm
                  simp [authenticateAllLoop, hconf, hauth, bumpAttempt,
                    dictGet_dictSet_ne _ _ _ _ (fun h => hnm h.symm)]
              · exfalso
                have : b.auth_succeeds = true := by
                  simp [Broker.auth_succeeds, hauth]
                rw [this] at hfail
                exact absurd hfail (by decide)
          | exn m =>
              refine ⟨?_, ?_, ?_, ?_⟩
              · simp [authenticateAllLoop, hconf, hauth]
              · simp [authenticateAllLoop, hconf, hauth]
              · simp [authenticateAllLoop, hconf, hauth]
              · intro nm hnm
                simp at hnm
                simp [authenticateAllLoop, hconf, hauth, bumpAttempt,
                  dictGet_dictSet_ne _ _ _ _ (fun h => hnm h.symm)]
  | cons hd tl ih =>
      obtain ⟨k, p⟩ := hd
      have hp : (p.is_configured && !p.auth_succeeds) = false :=
        hpre (k, p) (List.mem_cons_self _ _)
      have htl : ∀ q ∈ tl, (q.2.is_configured && !q.2.auth_succeeds) = false :=
        fun q hq => hpre q (List.mem_cons_of_mem _ hq)
      by_cases hc : p.is_configured = false
      · have hrec := ih attempts htl
        refine ⟨?_, ?_, ?_, ?_⟩
        · simp only [List.cons_append, authenticateAllLoop, hc, if_true,
            List.map_cons]
          exact congrArg (List.cons k) hrec.1
        · simp only [List.cons_append, authenticateAllLoop, hc, if_true,
            List.length_cons, List.get?_cons_succ]
          exact hrec.2.1
        · simp only [List.cons_append, authenticateAllLoop, hc, if_true,
            List.length_cons, List.drop_succ_cons]
          exact hrec.2.2.1
        · intro nm hnm
          simp only [List.map_cons, List.mem_cons, List.cons_append] at hnm
          push_neg at hnm
          simp only [List.cons_append, authenticateAllLoop, hc, if_true]
          exact hrec.2.2.2 nm (by
            intro hmem
            exact hnm.2 hmem)
      · have hc1 : p.is_configured = true := by
          cases h : p.is_configured
          · exact absurd h hc
          · rfl
        have hsucc : p.auth_succeeds = true := by
          rw [hc1] at hp
          cases h : p.auth_succeeds
          · rw [h] at hp
            simp at hp
          · rfl
        cases hauth : p.authenticate p.auth_info with
        | mk outcome i1 =>
            cases outcome with
            | ok s =>
                cases s
                · exfalso
                  have : p.auth_succeeds = false := by
                    simp [Broker.auth_succeeds, hauth]
                  rw [this] at hsucc
                  exact absurd hsucc (by decide)
                · have hrec := ih (bumpAttempt attempts k) htl
                  refine ⟨?_, ?_, ?_, ?_⟩
                  · simp only [List.cons_append, authenticateAllLoop, hc1,
                      hauth, List.map_cons]
                    exact congrArg (List.cons k) hrec.1
                  · simp only [List.cons_append, authenticateAllLoop, hc1,
                      hauth, List.length_cons, List.get?_cons_succ]
                    exact hrec.2.1
                  · simp only [List.cons_append, authenticateAllLoop, hc1,
                      hauth, List.length_cons, List.drop_succ_cons]
                    exact hrec.2.2.1
                  · intro nm hnm
                    simp only [List.map_cons, List.mem_cons,
                      List.cons_append] at hnm
                    push_neg at hnm
                    simp only [List.cons_append, authenticateAllLoop, hc1,
                      hauth]
                    exact (hrec.2.2.2 nm (fun hmem => hnm.2 hmem)).trans
                      (dictGet_dictSet_ne _ _ _ _ (fun h => hnm.1 h.symm))
            | exn m =>
                exfalso
                have : p.auth_succeeds = false := by
                  simp [Broker.auth_succeeds, hauth]
                rw [this] at hsucc
                exact absurd hsucc (by decide)

/-- Claim C3: authenticate_all(fail_fast=true) iterates in registration
order and stops at the first configured broker whose authentication fails
(returns False or raises): brokers after it keep their exact entries
(authenticate() not invoked, auth info unchanged, attempt counters for
names outside the processed prefix unchanged) and have no entry in the
results map, while the failing broker has a false entry. -/
theorem C3_fail_fast_stops (st : BrokerRegistry)
    (pre : List (String × Broker)) (n : String) (b : Broker)
    (post : List (String × Broker))
    (hsplit : st.brokers = pre ++ (n, b) :: post)
    (hpre : ∀ p ∈ pre, (p.2.is_configured && !p.2.auth_succeeds) = false)
    (hb : (b.is_configured && !b.auth_succeeds) = true) :
    (st.authenticate_all true).2.map Prod.fst =
      (pre ++ [(n, b)]).map Prod.fst ∧
    (st.authenticate_all true).2.get? pre.length = some (n, false) ∧
    (st.authenticate_all true).1.brokers.drop (pre.length + 1) = post ∧
    ∀ nm, ¬ nm ∈ (pre ++ [(n, b)]).map Prod.fst →
      dictGet (st.authenticate_all true).1.authentication_attempts nm =
        dictGet st.authentication_attempts nm := by
  have h := loop_true_stops pre n b post st.authentication_attempts hpre hb
  rw [← hsplit] at h
  exact h

/-- Concrete run of C3_fail_fast_stops: after a succeeding broker, a
failing one stops the fail-fast loop; the raising broker registered after
it gets no entry and keeps its state. -/
theorem C3_fail_fast_stops_witness :
    ((exBFalse.is_configured && !exBFalse.auth_succeeds) = true) ∧
    ((((BrokerRegistry.init.register exBTrue).register exBFalse).register
        exBExn).authenticate_all true).2.map Prod.fst = ["t", "f"] := by
  refine ⟨by decide, ?_⟩
  exact (C3_fail_fast_stops
    (((BrokerRegistry.init.register exBTrue).register exBFalse).register
      exBExn)
    [("t", exBTrue)] "f" exBFalse [("e", exBExn)] rfl
    (by decide) (by decide)).1

/-- Setting a key keeps every present key present. -/
theorem dictGet_isSome_dictSet {α : Type} (d : List (String × α))
    (k a : String) (v : α) (h : (dictGet d a).isSome = true) :
    (dictGet (dictSet d k v) a).isSome = true := by
  by_cases hk : k = a
  · subst hk
    rw [dictGet_dictSet_self]
    rfl
  · rw [dictGet_dictSet_ne _ _ _ _ hk]
    exact h

/-- The registry invariant: the active broker name, when set, is a key of
the broker dict. -/
def RegInv (st : BrokerRegistry) : Prop :=
  ∀ a, st.active_broker = some a → (dictGet st.brokers a).isSome = true

theorem regInv_init : RegInv BrokerRegistry.init := by
  intro a h
  simp [BrokerRegistry.init] at h

theorem regInv_step (st : BrokerRegistry) (op : RegOp) (h : RegInv st) :
    RegInv (regStep st op) := by
  cases op with
  | register b =>
      intro a ha
      cases hact : st.active_broker with
      | none =>
          simp [regStep, BrokerRegistry.register, hact] at ha ⊢
          subst ha
          rw [dictGet_dictSet_self]
          rfl
      | some x =>
          simp [regStep, BrokerRegistry.register, hact] at ha ⊢
          subst ha
          exact dictGet_isSome_dictSet _ _ _ _ (h _ hact)
  | setActive n =>
      intro a ha
      cases hg : dictGet st.brokers n with
      | none =>
          simp [regStep, BrokerRegistry.set_active_broker, hg] at ha ⊢
          exact h a ha
      | some v =>
          simp [regStep, BrokerRegistry.set_active_broker, hg] at ha ⊢
          subst ha
          rw [hg]
          rfl
  | authAll ff =>
      intro a ha
      simp only [regStep, BrokerRegistry.authenticate_all] at ha ⊢
      rw [dictGet_isSome_of_keys_eq _ st.brokers (loop_brokers_keys _ _ _) a]
      exact h a ha

theorem regInv_run (ops : List RegOp) : RegInv (regRun ops) := by
  have main : ∀ (l : List RegOp) (st : BrokerRegistry), RegInv st →
      RegInv (l.foldl regStep st) := by
    intro l
    induction l with
    | nil => exact fun st h => h
    | cons hd tl ih => exact fun st h => ih _ (regInv_step st hd h)
  exact main ops BrokerRegistry.init regInv_init

/-- Claim C4: over every operation sequence from the initial registry, the
active broker name, when set, is a registered key; registering into an
empty registry makes the new broker active while later registrations leave
the active broker unchanged; and set_active_broker on an unregistered name
returns False and leaves the whole state untouched. -/
theorem C4_registry_invariant (ops : List RegOp) :
    (∀ a, (regRun ops).active_broker = some a →
        (dictGet (regRun ops).brokers a).isSome = true) ∧
    (∀ b, (regRun ops).brokers = [] →
        ((regRun ops).register b).active_broker = some b.name) ∧
    (∀ b a, (regRun ops).active_broker = some a →
        ((regRun ops).register b).active_broker = some a) ∧
    (∀ nm, dictGet (regRun ops).brokers nm = none →
        (regRun ops).set_active_broker nm = (false, regRun ops)) := by
  have hinv := regInv_run ops
  refine ⟨hinv, ?_, ?_, ?_⟩
  · intro b hempty
    cases hact : (regRun ops).active_broker with
    | none => simp [BrokerRegistry.register, hact]
    | some a =>
        exfalso
        have h1 := hinv a hact
        rw [hempty] at h1
        simp [dictGet] at h1
  · intro b a hact
    simp [BrokerRegistry.register, hact]
  · intro nm hnone
    simp [BrokerRegistry.set_active_broker, hnone]

/-- Concrete run of C4_registry_invariant: after registering one broker it
is active and its name is a registered key. -/
theorem C4_registry_invariant_witness :
    (regRun [RegOp.register exBTrue]).active_broker = some "t" ∧
    (dictGet (regRun [RegOp.register exBTrue]).brokers "t").isSome = true :=
  ⟨rfl, (C4_registry_invariant [RegOp.register exBTrue]).1 "t" rfl⟩

/-- The auth info of a RobinhoodBroker constructed with both credentials
(robinhood.py constructor, username and password branch). -/
def rhInitInfo : BrokerAuthInfo :=
  { status := BrokerAuthStatus.NOT_AUTHENTICATED, broker_name := "robinhood" }

/-- Claim C5 as stated is false on the code: last_successful_auth is never
cleared, so after a successful authenticate followed by a successful
logout the broker sits in NOT_AUTHENTICATED with last_successful_auth
still non-null, violating the invariant that last_successful_auth is
non-null only while status is AUTHENTICATED. -/
theorem C5_counterexample :
    (rhRun rhInitInfo
        [RHOp.auth 0 1 (SessionOutcome.ok true),
         RHOp.logout none]).last_successful_auth = some 1 ∧
    (rhRun rhInitInfo
        [RHOp.auth 0 1 (SessionOutcome.ok true),
         RHOp.logout none]).status = BrokerAuthStatus.NOT_AUTHENTICATED ∧
    ¬ (rhRun rhInitInfo
        [RHOp.auth 0 1 (SessionOutcome.ok true),
         RHOp.logout none]).status = BrokerAuthStatus.AUTHENTICATED := by
  decide

/-- Claim C5 amended: every successful transition into AUTHENTICATED sets
error_message to null and records last_successful_auth; every transition
into NOT_AUTHENTICATED through a successful logout sets error_message to
null; and last_successful_auth is written only by a successful
authenticate — every other operation (failed or raising authenticate,
is_authenticated, logout, the registry defensive handler) leaves it
unchanged — so it is never cleared and may stay non-null after the status
leaves AUTHENTICATED. -/
theorem C5_auth_info_fields :
    (∀ b t1 t2,
        (rhAuthenticate b t1 t2 (SessionOutcome.ok true)).2.status =
            BrokerAuthStatus.AUTHENTICATED ∧
        (rhAuthenticate b t1 t2 (SessionOutcome.ok true)).2.error_message =
            none ∧
        (rhAuthenticate b t1 t2 (SessionOutcome.ok true)).2.last_successful_auth =
            some t2) ∧
    (∀ b, (rhLogout b none).status = BrokerAuthStatus.NOT_AUTHENTICATED ∧
        (rhLogout b none).error_message = none) ∧
    (∀ b op, op.isSuccessfulAuth = false →
        (rhStep b op).last_successful_auth = b.last_successful_auth) := by
  refine ⟨fun b t1 t2 => ⟨rfl, rfl, rfl⟩, fun b => ⟨rfl, rfl⟩, ?_⟩
  intro b op hop
  cases op with
  | auth t1 t2 o =>
      cases o with
      | ok s =>
          cases s
          · rfl
          · simp [RHOp.isSuccessfulAuth] at hop
      | exn m => rfl
  | isAuth v =>
      simp only [rhStep, rhIsAuthenticated]
      split
      · rfl
      · rfl
  | logout f =>
      cases f with
      | none => rfl
      | some m => rfl
  | defensive m => rfl

/-- Concrete run of C5_auth_info_fields: a logout step does not touch
last_successful_auth. -/
theorem C5_auth_info_fields_witness :
    (RHOp.logout none).isSuccessfulAuth = false ∧
    (rhStep rhInitInfo (RHOp.logout none)).last_successful_auth =
      rhInitInfo.last_successful_auth :=
  ⟨by decide, C5_auth_info_fields.2.2 rhInitInfo (RHOp.logout none)
    (by decide)⟩

/-- Claim C6: for a registered, non-empty broker name whose broker is not
AUTHENTICATED, get_broker_or_error returns no broker together with the
create_unavailable_response payload, whose status field is
broker_unavailable, whose auth_status is the string form of the current
AuthStatus, and which carries the broker name and the requires_setup bool;
for an AUTHENTICATED broker it returns the broker with no payload; and the
coordinator get_authenticated_broker_or_error delegates identically. -/
theorem C6_broker_unavailable (st : BrokerRegistry) (nm : String)
    (b : Broker) (op : String) (hnm : ¬ nm = "")
    (hget : dictGet st.brokers nm = some b) :
    (¬ b.auth_info.status = BrokerAuthStatus.AUTHENTICATED →
        st.get_broker_or_error (some nm) op =
          (none, some (b.create_unavailable_response op)) ∧
        (b.create_unavailable_response op).status = "broker_unavailable" ∧
        (b.create_unavailable_response op).auth_status =
          some b.auth_info.status.value ∧
        (b.create_unavailable_response op).broker = some b.name ∧
        (b.create_unavailable_response op).requires_setup =
          some b.auth_info.requires_setup) ∧
    (b.auth_info.status = BrokerAuthStatus.AUTHENTICATED →
        st.get_broker_or_error (some nm) op = (some b, none)) ∧
    get_authenticated_broker_or_error st (some nm) op =
      st.get_broker_or_error (some nm) op := by
  have hfind : st.get_broker (some nm) = some b := by
    simp [BrokerRegistry.get_broker, pyOrActive, hnm, hget]
  refine ⟨?_, ?_, rfl⟩
  · intro hstatus
    have hav : b.is_available = false := by
      simp [Broker.is_available, hstatus]
    constructor
    · simp [BrokerRegistry.get_broker_or_error, hfind, hav]
    · exact ⟨rfl, rfl, rfl, rfl⟩
  · intro hstatus
    have hav : b.is_available = true := by
      simp [Broker.is_available, hstatus]
    simp [BrokerRegistry.get_broker_or_error, hfind, hav]

/-- Concrete run of C6_broker_unavailable on a registry holding a broker
stuck in AUTH_FAILED after a failed OAuth login. -/
theorem C6_broker_unavailable_witness :
    dictGet (BrokerRegistry.init.register exBAF).brokers "rb" = some exBAF ∧
    ((BrokerRegistry.init.register exBAF).get_broker_or_error (some "rb")
        "get_portfolio").2 =
      some (exBAF.create_unavailable_response "get_portfolio") ∧
    (exBAF.create_unavailable_response "get_portfolio").status =
      "broker_unavailable" ∧
    (exBAF.create_unavailable_response "get_portfolio").auth_status =
      some "auth_failed" := by
  have h := (C6_broker_unavailable (BrokerRegistry.init.register exBAF)
    "rb" exBAF "get_portfolio" (by decide) rfl).1 (by decide)
  exact ⟨rfl, by rw [h.1], h.2.1, h.2.2.1⟩

/-- Claim C7: the require_at_least_one flag of attempt_broker_logins
influences neither the returned (successful, total, failed) triple nor the
final registry state — it only gates one log line. In this embedding the
function is total on every registry state (adapter exceptions are
AuthOutcome values that authenticate_all always handles), so it can never
prevent startup from continuing. -/
theorem C7_flag_only_logs (st : BrokerRegistry) :
    (attempt_broker_logins st true).1 = (attempt_broker_logins st false).1 ∧
    (attempt_broker_logins st true).2.1 =
      (attempt_broker_logins st false).2.1 := by
  unfold attempt_broker_logins
  by_cases h : st.list_brokers.isEmpty
  · simp [h]
  · simp [h]

/-- Claim C8: with zero registered brokers, attempt_broker_logins returns
(0, 0, []) and leaves the registry untouched (in particular it reaches
the short-circuit before authenticate_all and cannot throw). -/
theorem C8_no_brokers (st : BrokerRegistry) (flag : Bool)
    (h : st.brokers = []) :
    (attempt_broker_logins st flag).1 = (0, 0, []) ∧
    (attempt_broker_logins st flag).2.1 = st ∧
    (attempt_broker_logins st flag).2.2 =
      [CoordLog.separator, CoordLog.startBanner, CoordLog.separator,
       CoordLog.noBrokersWarning] := by
  have he : st.list_brokers.isEmpty = true := by
    simp [BrokerRegistry.list_brokers, h]
  unfold attempt_broker_logins
  simp [he]

/-- Concrete run of C8_no_brokers on the freshly initialized registry. -/
theorem C8_no_brokers_witness :
    BrokerRegistry.init.brokers = ([] : List (String × Broker)) ∧
    (attempt_broker_logins BrokerRegistry.init true).1 = (0, 0, []) :=
  ⟨rfl, (C8_no_brokers BrokerRegistry.init true rfl).1⟩

/-- Claim C9: get_broker treats the name empty string exactly like name
None — both coalesce to the active broker — so when an active broker is
set the lookup under the empty string resolves to the active name, a
broker registered under the empty-string key can never be returned, and
get_broker_or_error inherits the same behaviour. -/
theorem C9_empty_name_is_active (st : BrokerRegistry) :
    st.get_broker (some "") = st.get_broker none ∧
    (∀ op, st.get_broker_or_error (some "") op =
        st.get_broker_or_error none op) ∧
    (∀ a, st.active_broker = some a →
        st.get_broker (some "") =
          (if a = "" then none else dictGet st.brokers a)) ∧
    (st.active_broker = none → st.get_broker (some "") = none) := by
  refine ⟨rfl, fun op => rfl, ?_, ?_⟩
  · intro a ha
    simp [BrokerRegistry.get_broker, pyOrActive, ha]
  · intro ha
    simp [BrokerRegistry.get_broker, pyOrActive, ha]

/-- Concrete run of C9_empty_name_is_active: a registry whose broker dict
even holds the empty-string key still resolves the empty-string lookup to
the active broker. -/
theorem C9_empty_name_is_active_witness :
    ({ brokers := [("", exBFalse), ("t", exBTrue)],
       active_broker := some "t",
       authentication_attempts := [] } : BrokerRegistry).active_broker =
      some "t" ∧
    ({ brokers := [("", exBFalse), ("t", exBTrue)],
       active_broker := some "t",
       authentication_attempts := [] } : BrokerRegistry).get_broker
        (some "") =
      (if "t" = "" then none
       else dictGet [("", exBFalse), ("t", exBTrue)] "t") :=
  ⟨rfl, (C9_empty_name_is_active _).2.2.1 "t" rfl⟩

/-- Claim C10: with no active broker set (in particular on the registry
with zero brokers), get_broker_or_error with name None returns no broker
and the broker_not_found payload whose error text names active; the
registry lookup path only ever produces the statuses broker_not_found and
broker_unavailable — never no_authenticated_brokers, which is produced
solely by create_unauthenticated_tool_response. -/
theorem C10_not_found_statuses :
    (∀ (st : BrokerRegistry) (op : String), st.active_broker = none →
        st.get_broker_or_error none op =
          (none, some { error := "Broker not found: active",
                        status := "broker_not_found" })) ∧
    (∀ (st : BrokerRegistry) (nm : Option String) (op : String)
        (p : ResultPayload),
        (st.get_broker_or_error nm op).2 = some p →
        p.status = "broker_not_found" ∨ p.status = "broker_unavailable") ∧
    (∀ (st : BrokerRegistry) (nm : Option String) (op : String)
        (p : ResultPayload),
        (st.get_broker_or_error nm op).2 = some p →
        ¬ p.status = "no_authenticated_brokers") ∧
    (∀ nm, (create_unauthenticated_tool_response nm).status =
        "no_authenticated_brokers") := by
  have hstat : ∀ (st : BrokerRegistry) (nm : Option String) (op : String)
      (p : ResultPayload), (st.get_broker_or_error nm op).2 = some p →
      p.status = "broker_not_found" ∨ p.status = "broker_unavailable" := by
    intro st nm op p hp
    unfold BrokerRegistry.get_broker_or_error at hp
    cases hfind : st.get_broker nm with
    | none =>
        rw [hfind] at hp
        simp at hp
        left
        rw [← hp]
    | some b =>
        rw [hfind] at hp
        by_cases hav : b.is_available = true
        · simp [hav] at hp
        · simp [hav] at hp
          right
          rw [← hp]
          rfl
  refine ⟨?_, hstat, ?_, ?_⟩
  · intro st op ha
    simp only [BrokerRegistry.get_broker_or_error, BrokerRegistry.get_broker,
      pyOrActive, ha]
    rfl
  · intro st nm op p hp
    rcases hstat st nm op p hp with h | h
    · rw [h]
      decide
    · rw [h]
      decide
  · intro nm
    rfl

/-- Concrete run of C10_not_found_statuses on the freshly initialized
registry: no broker, payload broker_not_found naming active. -/
theorem C10_not_found_statuses_witness :
    BrokerRegistry.init.active_broker = none ∧
    BrokerRegistry.init.get_broker_or_error none "get_quote" =
      (none, some { error := "Broker not found: active",
                    status := "broker_not_found" }) :=
  ⟨rfl, C10_not_found_statuses.1 BrokerRegistry.init "get_quote" rfl⟩

end OpenStocks
